import Mathlib

/-!
Shallow embedding of the dotrix renderer core (`src/dotrix_core/src/renderer.rs`):
the `Renderer` facade, its pipeline cache interactions, and the four frame
lifecycle systems (`startup`, `bind`, `release`, `resize`).

The `backend` module, the `Shader`/`Assets`/`Globals`/`Color` types live in
parts of the repository outside the given sources; those are modelled from the
specification and carry a doc comment saying so.  Everything else is translated
directly from `renderer.rs`.

Machine integers: `cycle` is a Rust `usize`; its increment in `release` is
modelled as addition modulo `2 ^ 64` (release-build wrapping semantics).
Color channels are `f32` literals that the code only stores and compares,
never computes with; they are modelled as exact rationals.
-/

namespace Dotrix

/-- `Id<Shader>`: opaque copyable identifier for a shader asset, sole cache key. -/
abbrev ShaderId := Nat

/-- RGBA color (`Color`).  Modelled from the spec: the `Color` type lives outside
the given sources; the renderer only stores it and hands it to the backend, so
channels are modelled as exact rationals. -/
structure Color where
  r : ℚ
  g : ℚ
  b : ℚ
  a : ℚ
deriving DecidableEq, Repr

/-- `Color::from([r, g, b, a])`.  Modelled from the spec: stores the four channels. -/
def Color.fromRgba (r g b a : ℚ) : Color := ⟨r, g, b, a⟩

/-- Scissors Rectangle (`ScissorsRect`). -/
structure ScissorsRect where
  clip_min_x : Nat
  clip_min_y : Nat
  width : Nat
  height : Nat
deriving DecidableEq, Repr

/-- Pipeline options (`Options`): draw range and optional scissors rectangle. -/
structure Options where
  scissors_rect : Option ScissorsRect
  start_index : Nat
  end_index : Nat
deriving DecidableEq, Repr

/-- `Options::default()`. -/
def Options.defaultValue : Options :=
  { scissors_rect := none, start_index := 0, end_index := 1 }

/-- Rendering stage (`Stage`). -/
inductive Stage where
  | Vertex
  | Fragment
  | Compute
  | All
deriving DecidableEq, Repr

/-- Binding entry (`Binding`): label, stage and a reference to a resource handle,
the handle modelled by an opaque numeric identity. -/
inductive Binding where
  | Uniform (label : String) (stage : Stage) (buffer : Nat)
  | Texture (label : String) (stage : Stage) (buffer : Nat)
  | Texture3D (label : String) (stage : Stage) (buffer : Nat)
  | StorageTexture (label : String) (stage : Stage) (buffer : Nat)
  | Sampler (label : String) (stage : Stage) (sampler : Nat)
  | Storage (label : String) (stage : Stage) (buffer : Nat)
  | StorageAsUniform (label : String) (stage : Stage) (buffer : Nat)
deriving DecidableEq, Repr

/-- The label of a binding entry. -/
def Binding.label : Binding → String
  | .Uniform l _ _ => l
  | .Texture l _ _ => l
  | .Texture3D l _ _ => l
  | .StorageTexture l _ _ => l
  | .Sampler l _ _ => l
  | .Storage l _ _ => l
  | .StorageAsUniform l _ _ => l

/-- The resource identity a binding entry refers to. -/
def Binding.resource : Binding → Nat
  | .Uniform _ _ b => b
  | .Texture _ _ b => b
  | .Texture3D _ _ b => b
  | .StorageTexture _ _ b => b
  | .Sampler _ _ s => s
  | .Storage _ _ b => b
  | .StorageAsUniform _ _ b => b

/-- Bind Group (`BindGroup`): a labelled, ordered list of bindings. -/
structure BindGroup where
  label : String
  bindings : List Binding
deriving DecidableEq, Repr

/-- Mode of the depth buffer (`DepthBufferMode`). -/
inductive DepthBufferMode where
  | Read
  | Write
  | Disabled
deriving DecidableEq, Repr

/-- Pipeline options used at compile time (`PipelineOptions`). -/
structure PipelineOptions where
  depth_buffer_mode : DepthBufferMode
  disable_cull_mode : Bool
deriving DecidableEq, Repr

/-- Shader asset (`Shader`).  Modelled from the spec: the `Shader` asset type is
outside the given sources; it carries source text, a `loaded` flag set by the
lazy-compile step, and — to express that backend compilation may fail — a
`compile_ok` field recording whether the backend would compile it successfully. -/
structure Shader where
  name : String
  code : String
  loaded : Bool
  compile_ok : Bool
deriving DecidableEq, Repr

/-- Mesh asset (`Mesh`), external to this subsystem: only its vertex buffer
identity matters to the renderer. -/
structure Mesh where
  vertex_buffer : Nat
deriving DecidableEq, Repr

/-- Transient pipeline layout (`PipelineLayout`). -/
structure PipelineLayout where
  label : String
  mesh : Option Mesh
  shader : Shader
  bindings : List BindGroup
  options : PipelineOptions
deriving DecidableEq, Repr

/-- Compiled backend pipeline (`PipelineBackend`).  Modelled from the spec: the
backend compiles a `PipelineLayout` into an opaque pipeline object; the model
keeps the layout data it was compiled from. -/
structure PipelineBackend where
  label : String
  slots : List BindGroup
deriving DecidableEq, Repr

/-- Resolved bindings (`Bindings`): slot-to-resource mapping, one entry list per
bind group, positional.  Modelled from the spec: produced by Binding Assembly. -/
structure Bindings where
  slots : List (List (String × Nat))
deriving DecidableEq, Repr

/-- `Bindings::default()`: empty mapping. -/
def Bindings.defaultValue : Bindings := ⟨[]⟩

/-- `Bindings::load`.  Modelled from the spec: resolves each `BindGroup` entry
against the compiled pipeline's expected layout positionally, producing the
slot-to-resource mapping; no reordering or name-based fallback. -/
def Bindings.load (_pipeline : PipelineBackend) (groups : List BindGroup) : Bindings :=
  ⟨groups.map fun g => g.bindings.map fun b => (b.label, b.resource)⟩

/-- Backend events: the calls the facade makes into the external backend
collaborator, recorded so that "no backend side effects" is statable. -/
inductive BackendEvent where
  | initBackend
  | bindFrame (clear_color : Color)
  | releaseFrame
  | resizeSurface (width height : Nat)
  | newPipeline (shader : ShaderId)
  | dropPipeline (shader : ShaderId)
  | dropAllPipelines
  | runRenderPipeline (shader : ShaderId)
  | runComputePipeline (shader : ShaderId)
  | loadVertexBuffer
  | loadTextureBuffer
  | loadUniformBuffer
  | loadStorageBuffer
  | loadSampler
  | loadShaderModule
deriving DecidableEq, Repr

/-- Backend context (`backend::Context`).  Modelled from the spec: owns the
pipeline cache, a mapping from shader identity to compiled pipeline. -/
structure Context where
  pipelines : List (ShaderId × PipelineBackend)
deriving DecidableEq, Repr

/-- `Context::has_pipeline`.  Modelled from the spec: cache lookup test. -/
def Context.has_pipeline (ctx : Context) (shader : ShaderId) : Bool :=
  (ctx.pipelines.find? fun p => p.1 == shader).isSome

/-- `Context::pipeline`.  Modelled from the spec: cache lookup. -/
def Context.pipeline (ctx : Context) (shader : ShaderId) : Option PipelineBackend :=
  (ctx.pipelines.find? fun p => p.1 == shader).map Prod.snd

/-- `Context::add_pipeline`.  Modelled from the spec: insert for an id that
already exists replaces the prior entry. -/
def Context.add_pipeline (ctx : Context) (shader : ShaderId) (pb : PipelineBackend) : Context :=
  ⟨(shader, pb) :: ctx.pipelines.filter fun p => p.1 != shader⟩

/-- `Context::drop_pipeline`.  Modelled from the spec: removes one cache entry. -/
def Context.drop_pipeline (ctx : Context) (shader : ShaderId) : Context :=
  ⟨ctx.pipelines.filter fun p => p.1 != shader⟩

/-- `Context::drop_all_pipelines`.  Modelled from the spec: empties the cache. -/
def Context.drop_all_pipelines (_ctx : Context) : Context := ⟨[]⟩

/-- `PipelineBackend::new`.  Modelled from the spec: the backend compiles the
layout into a pipeline object. -/
def PipelineBackend.new (_ctx : Context) (layout : PipelineLayout) : PipelineBackend :=
  ⟨layout.label, layout.bindings⟩

/-- Caller-held pipeline value (`Pipeline`). -/
structure Pipeline where
  shader : ShaderId
  bindings : Bindings
  options : Options
deriving DecidableEq, Repr

/-- The Renderer service (`Renderer`): facade plus frame state. -/
structure Renderer where
  clear_color : Color
  cycle : Nat
  backend : Option Context
  loaded : Bool
deriving DecidableEq, Repr

/-- `Renderer::default()`. -/
def Renderer.defaultValue : Renderer :=
  { clear_color := Color.fromRgba (1/10) (2/10) (3/10) 1
    cycle := 1
    backend := none
    loaded := false }

/-- Result of a facade operation: `ok = false` means the operation panicked
(the Not-Ready `expect` on the unbound backend, or an `unwrap` failure);
`renderer` is the state as mutated up to that point; `events` records the
backend calls made. -/
structure OpResult (α : Type) where
  ok : Bool
  renderer : Renderer
  value : α
  events : List BackendEvent
deriving DecidableEq, Repr

/-- Resource handle: vertex buffer.  Modelled from the spec: wraps an optional
backend resource; `load` always re-uploads and sets the loaded flag. -/
structure VertexBuffer where
  loaded : Bool
deriving DecidableEq, Repr

/-- Resource handle: texture buffer.  Modelled from the spec. -/
structure TextureBuffer where
  loaded : Bool
deriving DecidableEq, Repr

/-- Resource handle: uniform buffer.  Modelled from the spec. -/
structure UniformBuffer where
  loaded : Bool
deriving DecidableEq, Repr

/-- Resource handle: storage buffer.  Modelled from the spec. -/
structure StorageBuffer where
  loaded : Bool
deriving DecidableEq, Repr

/-- Resource handle: texture sampler.  Modelled from the spec. -/
structure SamplerHandle where
  loaded : Bool
deriving DecidableEq, Repr

/-- `Sampler::default()`.  Modelled from the spec: constructed not yet loaded. -/
def SamplerHandle.defaultValue : SamplerHandle := ⟨false⟩

/-- Resource handle: shader module.  Modelled from the spec. -/
structure ShaderModule where
  loaded : Bool
deriving DecidableEq, Repr

/-- Texture usages builder (`TextureUsages`). -/
structure TextureUsages where
  texture : Bool
  write : Bool
deriving DecidableEq, Repr

/-- `TextureUsages::create()`. -/
def TextureUsages.create : TextureUsages := ⟨false, false⟩

/-- `TextureUsages::texture()`. -/
def TextureUsages.withTexture (u : TextureUsages) : TextureUsages := { u with texture := true }

/-- `TextureUsages::write()`. -/
def TextureUsages.withWrite (u : TextureUsages) : TextureUsages := { u with write := true }

/-- 3D compute work-group count (`WorkGroups`). -/
structure WorkGroups where
  x : Nat
  y : Nat
  z : Nat
deriving DecidableEq, Repr

/-- `Renderer::set_clear_color`: pure state setter, makes no backend access. -/
def Renderer.set_clear_color (r : Renderer) (color : Color) : OpResult Unit :=
  ⟨true, { r with clear_color := color }, (), []⟩

/-- `Renderer::cycle`: read-only accessor, makes no backend access. -/
def Renderer.cycleValue (r : Renderer) : OpResult Nat :=
  ⟨true, r, r.cycle, []⟩

/-- `Renderer::load_vertex_buffer`: `buffer.load(self.backend(), ...)`; the
`self.backend()` call panics when the backend is unbound. -/
def Renderer.load_vertex_buffer (r : Renderer) (buffer : VertexBuffer)
    (_attributes : List Nat) (_indices : Option (List Nat)) (_count : Nat) :
    OpResult VertexBuffer :=
  match r.backend with
  | none => ⟨false, r, buffer, []⟩
  | some _ => ⟨true, r, { buffer with loaded := true }, [.loadVertexBuffer]⟩

/-- `Renderer::load_texture_buffer_with_usage`. -/
def Renderer.load_texture_buffer_with_usage (r : Renderer) (buffer : TextureBuffer)
    (_width _height : Nat) (_layers : List (List Nat)) (_usages : TextureUsages) :
    OpResult TextureBuffer :=
  match r.backend with
  | none => ⟨false, r, buffer, []⟩
  | some _ => ⟨true, r, { buffer with loaded := true }, [.loadTextureBuffer]⟩

/-- `Renderer::load_texture_buffer`: delegates with the default usages. -/
def Renderer.load_texture_buffer (r : Renderer) (buffer : TextureBuffer)
    (width height : Nat) (layers : List (List Nat)) : OpResult TextureBuffer :=
  r.load_texture_buffer_with_usage buffer width height layers
    TextureUsages.create.withTexture.withWrite

/-- `Renderer::load_uniform_buffer`. -/
def Renderer.load_uniform_buffer (r : Renderer) (buffer : UniformBuffer)
    (_data : List Nat) : OpResult UniformBuffer :=
  match r.backend with
  | none => ⟨false, r, buffer, []⟩
  | some _ => ⟨true, r, { buffer with loaded := true }, [.loadUniformBuffer]⟩

/-- `Renderer::load_sampler`. -/
def Renderer.load_sampler (r : Renderer) (sampler : SamplerHandle) :
    OpResult SamplerHandle :=
  match r.backend with
  | none => ⟨false, r, sampler, []⟩
  | some _ => ⟨true, r, { sampler with loaded := true }, [.loadSampler]⟩

/-- `Renderer::load_storage_buffer`. -/
def Renderer.load_storage_buffer (r : Renderer) (buffer : StorageBuffer)
    (_data : List Nat) : OpResult StorageBuffer :=
  match r.backend with
  | none => ⟨false, r, buffer, []⟩
  | some _ => ⟨true, r, { buffer with loaded := true }, [.loadStorageBuffer]⟩

/-- `Renderer::load_shader_module`. -/
def Renderer.load_shader_module (r : Renderer) (shader_module : ShaderModule)
    (_name _code : String) : OpResult ShaderModule :=
  match r.backend with
  | none => ⟨false, r, shader_module, []⟩
  | some _ => ⟨true, r, { shader_module with loaded := true }, [.loadShaderModule]⟩

/-- `Renderer::drop_all_pipelines`: sets `loaded = false`, then calls into the
backend (which panics when unbound — after the flag was already cleared). -/
def Renderer.drop_all_pipelines (r : Renderer) : OpResult Unit :=
  let r := { r with loaded := false }
  match r.backend with
  | none => ⟨false, r, (), []⟩
  | some ctx =>
      ⟨true, { r with backend := some ctx.drop_all_pipelines }, (), [.dropAllPipelines]⟩

/-- `Renderer::drop_pipeline`: sets `loaded = false`, then drops one cache
entry via the backend. -/
def Renderer.drop_pipeline (r : Renderer) (shader : ShaderId) : OpResult Unit :=
  let r := { r with loaded := false }
  match r.backend with
  | none => ⟨false, r, (), []⟩
  | some ctx =>
      ⟨true, { r with backend := some (ctx.drop_pipeline shader) }, (),
        [.dropPipeline shader]⟩

/-- `Renderer::reload`: sets `loaded = false` and drops all cached pipelines. -/
def Renderer.reload (r : Renderer) : OpResult Unit :=
  Renderer.drop_all_pipelines { r with loaded := false }

/-- `Renderer::bind`: ensures a compiled pipeline is cached for
`pipeline.shader` (compiling from `layout` when absent), then resolves
`layout.bindings` against the cached pipeline and stores the result into
`pipeline.bindings`. -/
def Renderer.bind (r : Renderer) (pipeline : Pipeline) (layout : PipelineLayout) :
    OpResult Pipeline :=
  match r.backend with
  | none => ⟨false, r, pipeline, []⟩
  | some ctx =>
      let step : Context × List BackendEvent :=
        if ctx.has_pipeline pipeline.shader then (ctx, [])
        else
          let pipeline_backend := PipelineBackend.new ctx layout
          (ctx.add_pipeline pipeline.shader pipeline_backend,
            [.newPipeline pipeline.shader])
      match step.1.pipeline pipeline.shader with
      | none => ⟨false, { r with backend := some step.1 }, pipeline, step.2⟩
      | some pipeline_backend =>
          let bindings := Bindings.load pipeline_backend layout.bindings
          ⟨true, { r with backend := some step.1 },
            { pipeline with bindings := bindings }, step.2⟩

/-- `Renderer::run`: records a draw for the current frame; reads the pipeline,
never writes it. -/
def Renderer.run (r : Renderer) (pipeline : Pipeline) (_mesh : Mesh) :
    OpResult Pipeline :=
  match r.backend with
  | none => ⟨false, r, pipeline, []⟩
  | some _ => ⟨true, r, pipeline, [.runRenderPipeline pipeline.shader]⟩

/-- `Renderer::compute`: records a compute dispatch; reads the pipeline,
never writes it. -/
def Renderer.compute (r : Renderer) (pipeline : Pipeline) (_work_groups : WorkGroups) :
    OpResult Pipeline :=
  match r.backend with
  | none => ⟨false, r, pipeline, []⟩
  | some _ => ⟨true, r, pipeline, [.runComputePipeline pipeline.shader]⟩

/-- Global shared state (`Globals`).  Modelled from the spec: a store into which
`startup` places the default sampler; `set` replaces any previous value. -/
structure Globals where
  sampler : Option SamplerHandle
deriving DecidableEq, Repr

/-- Window service (`Window`), external: supplies the surface and its size. -/
structure Window where
  width : Nat
  height : Nat
deriving DecidableEq, Repr

/-- `backend::init`.  Modelled from the spec: one-time construction of the
backend context from the window surface; the pipeline cache starts empty. -/
def backendInit (_window : Window) : Context := ⟨[]⟩

/-- Result of a lifecycle system invocation. -/
structure SystemResult where
  renderer : Renderer
  globals : Globals
  shaders : List Shader
  ok : Bool
  events : List BackendEvent
deriving DecidableEq, Repr

/-- The `startup` system: initializes the backend if unbound, then loads a
fresh default sampler and stores it with `Globals`. -/
def startup (renderer : Renderer) (globals : Globals) (window : Window) :
    SystemResult :=
  let step : Renderer × List BackendEvent :=
    match renderer.backend with
    | none => ({ renderer with backend := some (backendInit window) }, [.initBackend])
    | some _ => (renderer, [])
  let sampler := SamplerHandle.defaultValue
  let res := step.1.load_sampler sampler
  { renderer := res.renderer
    globals := { globals with sampler := some res.value }
    shaders := []
    ok := res.ok
    events := step.2 ++ res.events }

/-- `Shader::load`.  Modelled from the spec: skips shaders already loaded
(leaves them untouched); otherwise attempts backend compilation, which sets
`loaded` exactly when the backend compile succeeds. -/
def Shader.load (_renderer : Renderer) (s : Shader) : Shader :=
  if s.loaded then s else { s with loaded := s.compile_ok }

/-- The per-frame `bind` system: begins the frame with the current clear color;
then, unless `loaded` is already true, runs the lazy shader-load pass over all
shader assets and recomputes `loaded`. -/
def bindSystem (renderer : Renderer) (shaders : List Shader) : SystemResult :=
  match renderer.backend with
  | none =>
      { renderer := renderer, globals := ⟨none⟩, shaders := shaders
        ok := false, events := [] }
  | some _ =>
      let events := [BackendEvent.bindFrame renderer.clear_color]
      if renderer.loaded then
        { renderer := renderer, globals := ⟨none⟩, shaders := shaders
          ok := true, events := events }
      else
        let shaders := shaders.map (Shader.load renderer)
        let loaded := shaders.all Shader.loaded
        { renderer := { renderer with loaded := loaded }, globals := ⟨none⟩
          shaders := shaders, ok := true, events := events }

/-- `usize` modulus: `cycle` is a 64-bit machine integer and `release`'s
increment wraps modulo `2 ^ 64`. -/
def USIZE_MOD : Nat := 2 ^ 64

/-- The per-frame `release` system: submits the frame, then advances `cycle`
by a wrapping increment, resetting to 1 when the wrap reaches 0. -/
def release (renderer : Renderer) : OpResult Unit :=
  match renderer.backend with
  | none => ⟨false, renderer, (), []⟩
  | some _ =>
      let cycle := (renderer.cycle + 1) % USIZE_MOD
      let cycle := if cycle = 0 then 1 else cycle
      ⟨true, { renderer with cycle := cycle }, (), [.releaseFrame]⟩

/-- The `resize` system: forwards the window's inner size to the backend. -/
def resize (renderer : Renderer) (window : Window) : OpResult Unit :=
  match renderer.backend with
  | none => ⟨false, renderer, (), []⟩
  | some _ => ⟨true, renderer, (), [.resizeSurface window.width window.height]⟩

/-- Iterated `release`: the renderer state after `n` release calls. -/
def releaseN : Nat → Renderer → Renderer
  | 0, r => r
  | n + 1, r => (release (releaseN n r)).renderer

/-! ## Helper lemmas -/

theorem release_backend (r : Renderer) : ((release r).renderer).backend = r.backend := by
  cases hb : r.backend <;> simp [release, hb]

theorem releaseN_backend (n : Nat) (r : Renderer) :
    (releaseN n r).backend = r.backend := by
  induction n with
  | zero => rfl
  | succ n ih => simp [releaseN, release_backend, ih]

theorem release_cycle_some (r : Renderer) (ctx : Context) (hb : r.backend = some ctx) :
    ((release r).renderer).cycle
      = if (r.cycle + 1) % USIZE_MOD = 0 then 1 else (r.cycle + 1) % USIZE_MOD := by
  simp [release, hb]

theorem release_cycle_ne_zero (r : Renderer) (h : r.cycle ≠ 0) :
    ((release r).renderer).cycle ≠ 0 := by
  cases hb : r.backend with
  | none => simpa [release, hb] using h
  | some ctx =>
      rw [release_cycle_some r ctx hb]
      split
      · exact one_ne_zero
      · assumption

theorem releaseN_cycle (ctx : Context) (r : Renderer) (hb : r.backend = some ctx)
    (hc : r.cycle = 1) (n : Nat) (h : n + 1 < USIZE_MOD) :
    (releaseN n r).cycle = n + 1 := by
  induction n with
  | zero => simpa [releaseN]
  | succ n ih =>
      have h1 : n + 1 < USIZE_MOD := Nat.lt_of_succ_lt h
      have hb1 : (releaseN n r).backend = some ctx := by rw [releaseN_backend, hb]
      have hc1 : (releaseN n r).cycle = n + 1 := ih h1
      have hmod : (n + 1 + 1) % USIZE_MOD = n + 1 + 1 := Nat.mod_eq_of_lt h
      rw [releaseN, release_cycle_some _ ctx hb1, hc1, hmod]
      simp

/-! ## Claims -/

/-- Claim C9: `Renderer::default()` constructs the state with clear color
`(0.1, 0.2, 0.3, 1.0)`, cycle `1`, no backend bound, and `loaded = false`. -/
theorem C9_default_state :
    Renderer.defaultValue.clear_color = Color.fromRgba (1/10) (2/10) (3/10) 1
  ∧ Renderer.defaultValue.cycle = 1
  ∧ Renderer.defaultValue.backend = none
  ∧ Renderer.defaultValue.loaded = false :=
  ⟨rfl, rfl, rfl, rfl⟩

/-- Claim C2: `cycle()` is 1 on a fresh Renderer; after `n` successful
`release` calls (backend bound), `cycle = ((1 + n - 1) % MAX) + 1` for
`n < MAX` where `MAX = 2^64 - 1` is the maximum representable `usize`;
and after any number `k` of release calls the cycle is never 0. -/
theorem C2_cycle (ctx : Context) (n k : Nat) (h : n < USIZE_MOD - 1) :
    Renderer.defaultValue.cycle = 1
  ∧ (releaseN n { Renderer.defaultValue with backend := some ctx }).cycle
      = ((1 + n - 1) % (USIZE_MOD - 1)) + 1
  ∧ (releaseN k { Renderer.defaultValue with backend := some ctx }).cycle ≠ 0 := by
  have hpos : 0 < USIZE_MOD := by norm_num [USIZE_MOD]
  refine ⟨rfl, ?_, ?_⟩
  · have h1 : n + 1 < USIZE_MOD := by omega
    rw [releaseN_cycle ctx _ rfl rfl n h1]
    have h2 : 1 + n - 1 = n := by omega
    rw [h2, Nat.mod_eq_of_lt h]
  · induction k with
    | zero => simp [releaseN, Renderer.defaultValue]
    | succ k ih =>
        exact release_cycle_ne_zero _ ih

/-- Witness for C2 at `ctx = ⟨[]⟩`, `n = 2`, `k = 3`. -/
theorem C2_cycle_witness :
    (2 : Nat) < USIZE_MOD - 1
  ∧ (Renderer.defaultValue.cycle = 1
     ∧ (releaseN 2 { Renderer.defaultValue with backend := some ⟨[]⟩ }).cycle
         = ((1 + 2 - 1) % (USIZE_MOD - 1)) + 1
     ∧ (releaseN 3 { Renderer.defaultValue with backend := some ⟨[]⟩ }).cycle ≠ 0) :=
  ⟨by norm_num [USIZE_MOD], C2_cycle ⟨[]⟩ 2 3 (by norm_num [USIZE_MOD])⟩

theorem Context.pipeline_add (ctx : Context) (s : ShaderId) (pb : PipelineBackend) :
    (ctx.add_pipeline s pb).pipeline s = some pb := by
  simp [Context.add_pipeline, Context.pipeline, List.find?]

theorem Context.pipeline_of_has (ctx : Context) (s : ShaderId)
    (h : ctx.has_pipeline s = true) : ∃ pb, ctx.pipeline s = some pb := by
  unfold Context.has_pipeline at h
  unfold Context.pipeline
  cases hf : ctx.pipelines.find? fun p => p.1 == s with
  | none => rw [hf] at h; simp at h
  | some v => exact ⟨v.2, rfl⟩

theorem Context.has_of_pipeline (ctx : Context) (s : ShaderId) (pb : PipelineBackend)
    (h : ctx.pipeline s = some pb) : ctx.has_pipeline s = true := by
  unfold Context.pipeline at h
  unfold Context.has_pipeline
  cases hf : ctx.pipelines.find? fun p => p.1 == s with
  | none => rw [hf] at h; simp at h
  | some v => rfl

theorem bind_cached (r : Renderer) (ctx : Context) (pb : PipelineBackend)
    (p : Pipeline) (layout : PipelineLayout) (hb : r.backend = some ctx)
    (hpb : ctx.pipeline p.shader = some pb) :
    r.bind p layout
      = ⟨true, { r with backend := some ctx },
          { p with bindings := Bindings.load pb layout.bindings }, []⟩ := by
  have hc := Context.has_of_pipeline ctx p.shader pb hpb
  simp [Renderer.bind, hb, hc, hpb]

theorem bind_uncached (r : Renderer) (ctx : Context) (p : Pipeline)
    (layout : PipelineLayout) (hb : r.backend = some ctx)
    (hc : ctx.has_pipeline p.shader = false) :
    r.bind p layout
      = ⟨true,
          { r with
            backend := some (ctx.add_pipeline p.shader (PipelineBackend.new ctx layout)) },
          { p with
            bindings := Bindings.load (PipelineBackend.new ctx layout) layout.bindings },
          [.newPipeline p.shader]⟩ := by
  simp [Renderer.bind, hb, hc, Context.pipeline_add]

/-- Claim C1: `bind(pipeline, layout)` — when no compiled pipeline is cached
for the bound shader id, one is compiled from the layout and inserted; when one
is cached, no compilation or insertion happens; and in either case
`layout.bindings` is resolved against the cached compiled pipeline and the
result replaces `pipeline.bindings`. -/
theorem C1_bind (r : Renderer) (ctx : Context) (p : Pipeline)
    (layout : PipelineLayout) (hb : r.backend = some ctx) :
    (ctx.has_pipeline p.shader = false →
        (r.bind p layout).renderer.backend
          = some (ctx.add_pipeline p.shader (PipelineBackend.new ctx layout))
      ∧ (r.bind p layout).events = [.newPipeline p.shader])
  ∧ (ctx.has_pipeline p.shader = true →
        (r.bind p layout).renderer.backend = some ctx
      ∧ (r.bind p layout).events = [])
  ∧ ∃ ctx' pb, (r.bind p layout).renderer.backend = some ctx'
      ∧ ctx'.pipeline p.shader = some pb
      ∧ (r.bind p layout).value.bindings = Bindings.load pb layout.bindings := by
  refine ⟨fun hc => ?_, fun hc => ?_, ?_⟩
  · rw [bind_uncached r ctx p layout hb hc]
    exact ⟨rfl, rfl⟩
  · obtain ⟨pb, hpb⟩ := Context.pipeline_of_has ctx p.shader hc
    rw [bind_cached r ctx pb p layout hb hpb]
    exact ⟨rfl, rfl⟩
  · cases hc : ctx.has_pipeline p.shader with
    | false =>
        refine ⟨ctx.add_pipeline p.shader (PipelineBackend.new ctx layout),
          PipelineBackend.new ctx layout, ?_⟩
        rw [bind_uncached r ctx p layout hb hc]
        exact ⟨rfl, Context.pipeline_add ctx p.shader _, rfl⟩
    | true =>
        obtain ⟨pb, hpb⟩ := Context.pipeline_of_has ctx p.shader hc
        refine ⟨ctx, pb, ?_⟩
        rw [bind_cached r ctx pb p layout hb hpb]
        exact ⟨rfl, hpb, rfl⟩

/-- Concrete layout used by witnesses. -/
def witnessLayout : PipelineLayout :=
  { label := "solid"
    mesh := none
    shader := { name := "solid", code := "code", loaded := true, compile_ok := true }
    bindings := [⟨"globals", [.Uniform "proj" .Vertex 5]⟩]
    options := { depth_buffer_mode := .Write, disable_cull_mode := false } }

/-- Concrete pipeline value used by witnesses. -/
def witnessPipeline : Pipeline :=
  { shader := 7, bindings := Bindings.defaultValue, options := Options.defaultValue }

/-- Witness for C1 on a renderer with a bound backend and empty cache. -/
theorem C1_bind_witness :
    ({ Renderer.defaultValue with backend := some ⟨[]⟩ } : Renderer).backend = some ⟨[]⟩
  ∧ (((⟨[]⟩ : Context).has_pipeline witnessPipeline.shader = false →
        (({ Renderer.defaultValue with backend := some ⟨[]⟩ } :
            Renderer).bind witnessPipeline witnessLayout).renderer.backend
          = some ((⟨[]⟩ : Context).add_pipeline witnessPipeline.shader
              (PipelineBackend.new ⟨[]⟩ witnessLayout))
      ∧ (({ Renderer.defaultValue with backend := some ⟨[]⟩ } :
            Renderer).bind witnessPipeline witnessLayout).events
          = [.newPipeline witnessPipeline.shader])
  ∧ ((⟨[]⟩ : Context).has_pipeline witnessPipeline.shader = true →
        (({ Renderer.defaultValue with backend := some ⟨[]⟩ } :
            Renderer).bind witnessPipeline witnessLayout).renderer.backend = some ⟨[]⟩
      ∧ (({ Renderer.defaultValue with backend := some ⟨[]⟩ } :
            Renderer).bind witnessPipeline witnessLayout).events = [])
  ∧ ∃ ctx' pb,
        (({ Renderer.defaultValue with backend := some ⟨[]⟩ } :
            Renderer).bind witnessPipeline witnessLayout).renderer.backend = some ctx'
      ∧ ctx'.pipeline witnessPipeline.shader = some pb
      ∧ (({ Renderer.defaultValue with backend := some ⟨[]⟩ } :
            Renderer).bind witnessPipeline witnessLayout).value.bindings
          = Bindings.load pb witnessLayout.bindings) :=
  ⟨rfl, C1_bind { Renderer.defaultValue with backend := some ⟨[]⟩ } ⟨[]⟩
    witnessPipeline witnessLayout rfl⟩

/-- Claim C7: `bind` mutates only the `bindings` field of the caller's
`Pipeline` — `shader` and `options` are unchanged by every `bind` call — and
`run` and `compute` do not mutate any field of the `Pipeline` they are given. -/
theorem C7_pipeline_fields (r : Renderer) (p : Pipeline) (layout : PipelineLayout)
    (mesh : Mesh) (wg : WorkGroups) :
    ((r.bind p layout).value).shader = p.shader
  ∧ ((r.bind p layout).value).options = p.options
  ∧ (r.run p mesh).value = p
  ∧ (r.compute p wg).value = p := by
  have hrun : (r.run p mesh).value = p := by
    cases hb : r.backend <;> simp [Renderer.run, hb]
  have hcomp : (r.compute p wg).value = p := by
    cases hb : r.backend <;> simp [Renderer.compute, hb]
  cases hb : r.backend with
  | none => exact ⟨by simp [Renderer.bind, hb], by simp [Renderer.bind, hb], hrun, hcomp⟩
  | some ctx =>
      cases hc : ctx.has_pipeline p.shader with
      | false =>
          rw [bind_uncached r ctx p layout hb hc]
          exact ⟨rfl, rfl, hrun, hcomp⟩
      | true =>
          obtain ⟨pb, hpb⟩ := Context.pipeline_of_has ctx p.shader hc
          rw [bind_cached r ctx pb p layout hb hpb]
          exact ⟨rfl, rfl, hrun, hcomp⟩

/-- Claim C8: binding resolution is deterministic — two `bind` calls against
the same cached compiled pipeline with the same ordered `BindGroup` list store
structurally equal `Bindings` into their pipelines. -/
theorem C8_deterministic (r1 r2 : Renderer) (ctx1 ctx2 : Context)
    (pb : PipelineBackend) (p1 p2 : Pipeline) (layout1 layout2 : PipelineLayout)
    (hb1 : r1.backend = some ctx1) (hb2 : r2.backend = some ctx2)
    (hpb1 : ctx1.pipeline p1.shader = some pb)
    (hpb2 : ctx2.pipeline p2.shader = some pb)
    (hl : layout1.bindings = layout2.bindings) :
    ((r1.bind p1 layout1).value).bindings = ((r2.bind p2 layout2).value).bindings := by
  rw [bind_cached r1 ctx1 pb p1 layout1 hb1 hpb1,
    bind_cached r2 ctx2 pb p2 layout2 hb2 hpb2]
  simp [hl]

/-- Concrete cached context used by witnesses: shader id 7 resolved. -/
def witnessContext : Context :=
  ⟨[(7, PipelineBackend.new ⟨[]⟩ witnessLayout)]⟩

/-- Witness for C8: the same cached pipeline and layout on two renderers. -/
theorem C8_deterministic_witness :
    ({ Renderer.defaultValue with backend := some witnessContext } : Renderer).backend
        = some witnessContext
  ∧ ({ Renderer.defaultValue with loaded := true, backend := some witnessContext } :
        Renderer).backend = some witnessContext
  ∧ witnessContext.pipeline witnessPipeline.shader
      = some (PipelineBackend.new ⟨[]⟩ witnessLayout)
  ∧ witnessLayout.bindings = witnessLayout.bindings
  ∧ ((({ Renderer.defaultValue with backend := some witnessContext } :
        Renderer).bind witnessPipeline witnessLayout).value).bindings
      = ((({ Renderer.defaultValue with loaded := true, backend := some witnessContext } :
            Renderer).bind witnessPipeline witnessLayout).value).bindings :=
  ⟨rfl, rfl, by decide, rfl,
    C8_deterministic
      { Renderer.defaultValue with backend := some witnessContext }
      { Renderer.defaultValue with loaded := true, backend := some witnessContext }
      witnessContext witnessContext (PipelineBackend.new ⟨[]⟩ witnessLayout)
      witnessPipeline witnessPipeline witnessLayout witnessLayout
      rfl rfl (by decide) (by decide) rfl⟩

/-- Claim C3: the per-frame `bind` system — with `loaded` true it only begins
the frame (no shader scan); with `loaded` false it runs the load attempt over
every shader asset, leaves already-loaded shaders untouched, and afterwards
`loaded` is true exactly when every shader ended the pass loaded. -/
theorem C3_bind_system (r : Renderer) (ctx : Context) (shaders : List Shader)
    (hb : r.backend = some ctx) :
    (r.loaded = true →
        bindSystem r shaders
          = { renderer := r, globals := ⟨none⟩, shaders := shaders, ok := true
              events := [BackendEvent.bindFrame r.clear_color] })
  ∧ (r.loaded = false →
        (bindSystem r shaders).shaders = shaders.map (Shader.load r)
      ∧ (∀ s : Shader, s.loaded = true → Shader.load r s = s)
      ∧ ((bindSystem r shaders).renderer.loaded = true
           ↔ ∀ s ∈ (bindSystem r shaders).shaders, s.loaded = true)) := by
  refine ⟨fun hl => ?_, fun hl => ?_⟩
  · simp [bindSystem, hb, hl]
  · refine ⟨by simp [bindSystem, hb, hl], fun s hs => by simp [Shader.load, hs], ?_⟩
    simp [bindSystem, hb, hl, List.all_eq_true]

/-- Witness for C3: one already-loaded shader, one that fails to compile. -/
theorem C3_bind_system_witness :
    ({ Renderer.defaultValue with backend := some ⟨[]⟩ } : Renderer).backend = some ⟨[]⟩
  ∧ (({ Renderer.defaultValue with backend := some ⟨[]⟩ } : Renderer).loaded = true →
        bindSystem { Renderer.defaultValue with backend := some ⟨[]⟩ }
            [⟨"a", "ca", true, true⟩, ⟨"b", "cb", false, false⟩]
          = { renderer := { Renderer.defaultValue with backend := some ⟨[]⟩ }
              globals := ⟨none⟩
              shaders := [⟨"a", "ca", true, true⟩, ⟨"b", "cb", false, false⟩]
              ok := true
              events := [BackendEvent.bindFrame
                ({ Renderer.defaultValue with backend := some ⟨[]⟩ } :
                  Renderer).clear_color] })
  ∧ (({ Renderer.defaultValue with backend := some ⟨[]⟩ } : Renderer).loaded = false →
        (bindSystem { Renderer.defaultValue with backend := some ⟨[]⟩ }
            [⟨"a", "ca", true, true⟩, ⟨"b", "cb", false, false⟩]).shaders
          = [⟨"a", "ca", true, true⟩, ⟨"b", "cb", false, false⟩].map
              (Shader.load { Renderer.defaultValue with backend := some ⟨[]⟩ })
      ∧ (∀ s : Shader, s.loaded = true →
            Shader.load { Renderer.defaultValue with backend := some ⟨[]⟩ } s = s)
      ∧ ((bindSystem { Renderer.defaultValue with backend := some ⟨[]⟩ }
            [⟨"a", "ca", true, true⟩, ⟨"b", "cb", false, false⟩]).renderer.loaded = true
           ↔ ∀ s ∈ (bindSystem { Renderer.defaultValue with backend := some ⟨[]⟩ }
                [⟨"a", "ca", true, true⟩, ⟨"b", "cb", false, false⟩]).shaders,
               s.loaded = true)) :=
  ⟨rfl, C3_bind_system { Renderer.defaultValue with backend := some ⟨[]⟩ } ⟨[]⟩
    [⟨"a", "ca", true, true⟩, ⟨"b", "cb", false, false⟩] rfl⟩

/-- Claim C6: `drop_pipeline`, `drop_all_pipelines` and `reload` all leave the
`loaded` flag false, and immediately after `reload` (or `drop_all_pipelines`)
the pipeline cache has no entry for any shader id. -/
theorem C6_invalidation (r : Renderer) (ctx : Context) (s : ShaderId)
    (hb : r.backend = some ctx) :
    ((r.drop_pipeline s).renderer).loaded = false
  ∧ ((r.drop_all_pipelines).renderer).loaded = false
  ∧ ((r.reload).renderer).loaded = false
  ∧ (∃ ctx', (r.reload).renderer.backend = some ctx'
        ∧ ∀ S : ShaderId, ctx'.has_pipeline S = false)
  ∧ (∃ ctx', (r.drop_all_pipelines).renderer.backend = some ctx'
        ∧ ∀ S : ShaderId, ctx'.has_pipeline S = false) := by
  have hempty : ∀ S : ShaderId, (⟨[]⟩ : Context).has_pipeline S = false := by
    intro S
    rfl
  refine ⟨?_, ?_, ?_, ?_, ?_⟩
  · simp [Renderer.drop_pipeline, hb]
  · simp [Renderer.drop_all_pipelines, hb]
  · simp [Renderer.reload, Renderer.drop_all_pipelines, hb]
  · exact ⟨⟨[]⟩, by simp [Renderer.reload, Renderer.drop_all_pipelines, hb,
      Context.drop_all_pipelines], hempty⟩
  · exact ⟨⟨[]⟩, by simp [Renderer.drop_all_pipelines, hb,
      Context.drop_all_pipelines], hempty⟩

/-- Witness for C6 on a renderer whose cache holds shader 7. -/
theorem C6_invalidation_witness :
    ({ Renderer.defaultValue with loaded := true, backend := some witnessContext } :
        Renderer).backend = some witnessContext
  ∧ ((({ Renderer.defaultValue with loaded := true, backend := some witnessContext } :
        Renderer).drop_pipeline 7).renderer).loaded = false
  ∧ ((({ Renderer.defaultValue with loaded := true, backend := some witnessContext } :
        Renderer).drop_all_pipelines).renderer).loaded = false
  ∧ ((({ Renderer.defaultValue with loaded := true, backend := some witnessContext } :
        Renderer).reload).renderer).loaded = false
  ∧ (∃ ctx',
        (({ Renderer.defaultValue with loaded := true, backend := some witnessContext } :
            Renderer).reload).renderer.backend = some ctx'
        ∧ ∀ S : ShaderId, ctx'.has_pipeline S = false)
  ∧ (∃ ctx',
        (({ Renderer.defaultValue with loaded := true, backend := some witnessContext } :
            Renderer).drop_all_pipelines).renderer.backend = some ctx'
        ∧ ∀ S : ShaderId, ctx'.has_pipeline S = false) :=
  ⟨rfl, C6_invalidation
    { Renderer.defaultValue with loaded := true, backend := some witnessContext }
    witnessContext 7 rfl⟩

/-- Counterexample to claim C4: `set_clear_color` is listed among the facade
operations said to fail fatally while the backend is unbound, yet on the
default (unbound) renderer it succeeds — it never touches the backend. -/
theorem C4_counterexample :
    Renderer.defaultValue.backend = none
  ∧ (Renderer.defaultValue.set_clear_color (Color.fromRgba 0 0 0 1)).ok = true :=
  ⟨rfl, rfl⟩

/-- Claim C4 (amended): every backend-touching facade operation — the `load_*`
operations, `bind`, `run`, `compute`, `reload`, `drop_pipeline`,
`drop_all_pipelines` — fails with the Not-Ready condition while the backend is
unbound; `set_clear_color` and `cycle` touch no backend state and succeed. -/
theorem C4_not_ready (r : Renderer) (hb : r.backend = none)
    (vb : VertexBuffer) (tb : TextureBuffer) (ub : UniformBuffer)
    (sb : StorageBuffer) (sh : SamplerHandle) (sm : ShaderModule)
    (p : Pipeline) (layout : PipelineLayout) (mesh : Mesh) (wg : WorkGroups)
    (s : ShaderId) (attrs data : List Nat) (layers : List (List Nat))
    (w hgt cnt : Nat) (u : TextureUsages) (name code : String) (color : Color) :
    (r.load_vertex_buffer vb attrs none cnt).ok = false
  ∧ (r.load_texture_buffer tb w hgt layers).ok = false
  ∧ (r.load_texture_buffer_with_usage tb w hgt layers u).ok = false
  ∧ (r.load_uniform_buffer ub data).ok = false
  ∧ (r.load_sampler sh).ok = false
  ∧ (r.load_storage_buffer sb data).ok = false
  ∧ (r.load_shader_module sm name code).ok = false
  ∧ (r.bind p layout).ok = false
  ∧ (r.run p mesh).ok = false
  ∧ (r.compute p wg).ok = false
  ∧ (r.reload).ok = false
  ∧ (r.drop_pipeline s).ok = false
  ∧ (r.drop_all_pipelines).ok = false
  ∧ (r.set_clear_color color).ok = true
  ∧ (r.cycleValue).ok = true := by
  refine ⟨?_, ?_, ?_, ?_, ?_, ?_, ?_, ?_, ?_, ?_, ?_, ?_, ?_, rfl, rfl⟩ <;>
    simp [Renderer.load_vertex_buffer, Renderer.load_texture_buffer,
      Renderer.load_texture_buffer_with_usage, Renderer.load_uniform_buffer,
      Renderer.load_sampler, Renderer.load_storage_buffer,
      Renderer.load_shader_module, Renderer.bind, Renderer.run, Renderer.compute,
      Renderer.reload, Renderer.drop_pipeline, Renderer.drop_all_pipelines, hb]

/-- Witness for the amended C4 on the default renderer. -/
theorem C4_not_ready_witness :
    Renderer.defaultValue.backend = none
  ∧ ((Renderer.defaultValue.load_vertex_buffer ⟨false⟩ [] none 0).ok = false
  ∧ (Renderer.defaultValue.load_texture_buffer ⟨false⟩ 0 0 []).ok = false
  ∧ (Renderer.defaultValue.load_texture_buffer_with_usage ⟨false⟩ 0 0 []
        TextureUsages.create).ok = false
  ∧ (Renderer.defaultValue.load_uniform_buffer ⟨false⟩ []).ok = false
  ∧ (Renderer.defaultValue.load_sampler ⟨false⟩).ok = false
  ∧ (Renderer.defaultValue.load_storage_buffer ⟨false⟩ []).ok = false
  ∧ (Renderer.defaultValue.load_shader_module ⟨false⟩ "n" "c").ok = false
  ∧ (Renderer.defaultValue.bind witnessPipeline witnessLayout).ok = false
  ∧ (Renderer.defaultValue.run witnessPipeline ⟨0⟩).ok = false
  ∧ (Renderer.defaultValue.compute witnessPipeline ⟨1, 1, 1⟩).ok = false
  ∧ (Renderer.defaultValue.reload).ok = false
  ∧ (Renderer.defaultValue.drop_pipeline 7).ok = false
  ∧ (Renderer.defaultValue.drop_all_pipelines).ok = false
  ∧ (Renderer.defaultValue.set_clear_color (Color.fromRgba 0 0 0 1)).ok = true
  ∧ (Renderer.defaultValue.cycleValue).ok = true) :=
  ⟨rfl, C4_not_ready Renderer.defaultValue rfl ⟨false⟩ ⟨false⟩ ⟨false⟩ ⟨false⟩
    ⟨false⟩ ⟨false⟩ witnessPipeline witnessLayout ⟨0⟩ ⟨1, 1, 1⟩ 7 [] [] [] 0 0 0
    TextureUsages.create "n" "c" (Color.fromRgba 0 0 0 1)⟩

/-- Counterexample to claim C5: `reload` invoked while the backend is unbound
fails with Not-Ready, yet it has already cleared the `loaded` flag — the
Renderer state is not exactly as before the call. -/
theorem C5_counterexample :
    ({ Renderer.defaultValue with loaded := true } : Renderer).loaded = true
  ∧ (({ Renderer.defaultValue with loaded := true } : Renderer).reload).ok = false
  ∧ (({ Renderer.defaultValue with loaded := true } :
        Renderer).reload).renderer.loaded = false :=
  ⟨rfl, rfl, rfl⟩

/-- Claim C5 (amended): a facade operation failing with Not-Ready makes no
backend calls; `run`, `compute` and `bind` also leave the Renderer state
exactly as before the call; but `reload`, `drop_pipeline` and
`drop_all_pipelines` set `loaded` to false before failing. -/
theorem C5_not_ready_effects (r : Renderer) (hb : r.backend = none)
    (p : Pipeline) (layout : PipelineLayout) (mesh : Mesh) (wg : WorkGroups)
    (s : ShaderId) :
    (r.run p mesh).events = [] ∧ (r.run p mesh).renderer = r
  ∧ (r.compute p wg).events = [] ∧ (r.compute p wg).renderer = r
  ∧ (r.bind p layout).events = [] ∧ (r.bind p layout).renderer = r
  ∧ (r.reload).events = []
  ∧ (r.reload).renderer = { r with loaded := false }
  ∧ (r.drop_pipeline s).events = []
  ∧ (r.drop_pipeline s).renderer = { r with loaded := false }
  ∧ (r.drop_all_pipelines).events = []
  ∧ (r.drop_all_pipelines).renderer = { r with loaded := false } := by
  refine ⟨?_, ?_, ?_, ?_, ?_, ?_, ?_, ?_, ?_, ?_, ?_, ?_⟩ <;>
    simp [Renderer.run, Renderer.compute, Renderer.bind, Renderer.reload,
      Renderer.drop_pipeline, Renderer.drop_all_pipelines, hb]

/-- Witness for the amended C5 on an unbound renderer with `loaded = true`. -/
theorem C5_not_ready_effects_witness :
    ({ Renderer.defaultValue with loaded := true } : Renderer).backend = none
  ∧ ((({ Renderer.defaultValue with loaded := true } : Renderer).run
        witnessPipeline ⟨0⟩).events = []
  ∧ (({ Renderer.defaultValue with loaded := true } : Renderer).run
        witnessPipeline ⟨0⟩).renderer = { Renderer.defaultValue with loaded := true }
  ∧ (({ Renderer.defaultValue with loaded := true } : Renderer).compute
        witnessPipeline ⟨1, 1, 1⟩).events = []
  ∧ (({ Renderer.defaultValue with loaded := true } : Renderer).compute
        witnessPipeline ⟨1, 1, 1⟩).renderer = { Renderer.defaultValue with loaded := true }
  ∧ (({ Renderer.defaultValue with loaded := true } : Renderer).bind
        witnessPipeline witnessLayout).events = []
  ∧ (({ Renderer.defaultValue with loaded := true } : Renderer).bind
        witnessPipeline witnessLayout).renderer = { Renderer.defaultValue with loaded := true }
  ∧ (({ Renderer.defaultValue with loaded := true } : Renderer).reload).events = []
  ∧ (({ Renderer.defaultValue with loaded := true } : Renderer).reload).renderer
      = { ({ Renderer.defaultValue with loaded := true } : Renderer) with loaded := false }
  ∧ (({ Renderer.defaultValue with loaded := true } : Renderer).drop_pipeline 7).events = []
  ∧ (({ Renderer.defaultValue with loaded := true } : Renderer).drop_pipeline 7).renderer
      = { ({ Renderer.defaultValue with loaded := true } : Renderer) with loaded := false }
  ∧ (({ Renderer.defaultValue with loaded := true } : Renderer).drop_all_pipelines).events = []
  ∧ (({ Renderer.defaultValue with loaded := true } : Renderer).drop_all_pipelines).renderer
      = { ({ Renderer.defaultValue with loaded := true } : Renderer) with loaded := false }) :=
  ⟨rfl, C5_not_ready_effects { Renderer.defaultValue with loaded := true } rfl
    witnessPipeline witnessLayout ⟨0⟩ ⟨1, 1, 1⟩ 7⟩

/-- Claim C10: invoking `startup` with the backend already bound preserves the
existing backend context unchanged (no re-initialization event); and every
`startup` invocation — first or repeated — loads a fresh default sampler and
stores it into `Globals`, replacing any previously stored sampler. -/
theorem C10_startup (r r2 : Renderer) (ctx : Context) (g g2 : Globals)
    (w w2 : Window) (hb : r.backend = some ctx) :
    (startup r g w).renderer.backend = some ctx
  ∧ (startup r g w).events = [BackendEvent.loadSampler]
  ∧ (startup r2 g2 w2).globals.sampler = some ⟨true⟩ := by
  refine ⟨?_, ?_, ?_⟩
  · simp [startup, Renderer.load_sampler, hb]
  · simp [startup, Renderer.load_sampler, hb]
  · cases hb2 : r2.backend <;>
      simp [startup, Renderer.load_sampler, SamplerHandle.defaultValue, hb2]

/-- Witness for C10: repeated startup on a bound renderer, and a first startup
on the default renderer replacing a previously stored sampler. -/
theorem C10_startup_witness :
    ({ Renderer.defaultValue with backend := some witnessContext } : Renderer).backend
        = some witnessContext
  ∧ ((startup { Renderer.defaultValue with backend := some witnessContext }
        ⟨some ⟨false⟩⟩ ⟨800, 600⟩).renderer.backend = some witnessContext
  ∧ (startup { Renderer.defaultValue with backend := some witnessContext }
        ⟨some ⟨false⟩⟩ ⟨800, 600⟩).events = [BackendEvent.loadSampler]
  ∧ (startup Renderer.defaultValue ⟨some ⟨false⟩⟩ ⟨800, 600⟩).globals.sampler
      = some ⟨true⟩) :=
  ⟨rfl, C10_startup { Renderer.defaultValue with backend := some witnessContext }
    Renderer.defaultValue witnessContext ⟨some ⟨false⟩⟩ ⟨some ⟨false⟩⟩
    ⟨800, 600⟩ ⟨800, 600⟩ rfl⟩

end Dotrix
